import Mathlib

/-!
Verification of the Sentiment repository's analysis core.

Shallow embedding of:
* `SentimentAnalyzer` (src/src/analysis/sentiment_analyzer.py): text cleaning,
  blended lexical scoring, batch aggregation, and score classification.
  The two external lexical libraries (TextBlob, VADER) are not part of the
  repository, so `analyze` is parametrised by the two model oracles.
* `MarketIndicators.get_overall_market_sentiment`
  (src/src/data_sources/market_indicators.py): the weighted composite of up
  to four optional indicator scores.
* `FMPCollector.analyze_institutional_sentiment` and
  `FMPCollector.analyze_insider_sentiment`
  (src/src/data_sources/fmp_collector.py).

Python floats are embedded as exact rationals (ℚ); all the arithmetic in the
verified claims is exact at the relevant inputs, so the boundary behaviour is
identical.  Python dicts that carry different key sets on different branches
are embedded as structures with `Option` fields for the keys that are only
present on some branches.
-/

namespace Sentiment

/-- Output of the TextBlob oracle: `{'polarity': ..., 'subjectivity': ...}`. -/
structure TextBlobResult where
  polarity : ℚ
  subjectivity : ℚ
deriving Repr, DecidableEq

/-- Output of the VADER oracle: `{'compound', 'pos', 'neg', 'neu'}`. -/
structure VaderResult where
  compound : ℚ
  positive : ℚ
  negative : ℚ
  neutral : ℚ
deriving Repr, DecidableEq

/-- Return dict of `SentimentAnalyzer.analyze`.  The empty-text branch returns
a dict without the `vader_positive`/`vader_negative`/`vader_neutral` keys, so
those are `Option`s (`none` = key absent). -/
structure SentimentResult where
  sentiment_score : ℚ
  textblob_score : ℚ
  vader_score : ℚ
  confidence : ℚ
  subjectivity : ℚ
  vader_positive : Option ℚ
  vader_negative : Option ℚ
  vader_neutral : Option ℚ
deriving Repr, DecidableEq

/-! ### `clean_text` (sentiment_analyzer.py lines 35-57)

`re.sub(r'http\S+|www\S+|https\S+', '', text)` removes, scanning left to
right, every occurrence of `http` or `www` followed by at least one
non-whitespace character together with the whole following non-whitespace
run (the `https\S+` alternative is subsumed by `http\S+`).
`re.sub(r'@\w+', '', text)` removes every `@` followed by at least one word
character together with the run of word characters.  Then every `#` is
removed and whitespace is normalised by `' '.join(text.split())`. -/

/-- Python `\w` on ASCII text: letters, digits, underscore. -/
def isWordChar (c : Char) : Bool :=
  c.isAlphanum || c = '_'

/-- Remainder after the longest run of non-whitespace characters. -/
def takeNonSpace (cs : List Char) : List Char :=
  cs.dropWhile (fun c => !c.isWhitespace)

/-- `re.sub(r'http\S+|www\S+|https\S+', '', ·)` on a character list:
at each position, if the text starts with `http` (resp. `www`) followed by a
non-whitespace character, that match and its greedy `\S+` run are dropped.
Structural recursion on a fuel argument (each step consumes at least one
character, so `fuel = length` never runs out); keeps the definition
kernel-reducible on concrete strings. -/
def removeUrlsFuel : Nat → List Char → List Char
  | 0, cs => cs
  | _ + 1, [] => []
  | fuel + 1, 'h' :: 't' :: 't' :: 'p' :: c :: rest =>
      if ¬ c.isWhitespace then
        removeUrlsFuel fuel (takeNonSpace rest)
      else
        'h' :: removeUrlsFuel fuel ('t' :: 't' :: 'p' :: c :: rest)
  | fuel + 1, 'w' :: 'w' :: 'w' :: c :: rest =>
      if ¬ c.isWhitespace then
        removeUrlsFuel fuel (takeNonSpace rest)
      else
        'w' :: removeUrlsFuel fuel ('w' :: 'w' :: c :: rest)
  | fuel + 1, c :: rest => c :: removeUrlsFuel fuel rest

/-- The URL-stripping pass with enough fuel for the whole input. -/
def removeUrls (cs : List Char) : List Char :=
  removeUrlsFuel cs.length cs

/-- `re.sub(r'@\w+', '', ·)`: each `@` followed by at least one word
character is dropped together with the greedy run of word characters.
Fuel-structural for the same reason as `removeUrlsFuel`. -/
def removeMentionsFuel : Nat → List Char → List Char
  | 0, cs => cs
  | _ + 1, [] => []
  | fuel + 1, '@' :: c :: rest =>
      if isWordChar c then
        removeMentionsFuel fuel (rest.dropWhile isWordChar)
      else
        '@' :: removeMentionsFuel fuel (c :: rest)
  | fuel + 1, c :: rest => c :: removeMentionsFuel fuel rest

/-- The mention-stripping pass with enough fuel for the whole input. -/
def removeMentions (cs : List Char) : List Char :=
  removeMentionsFuel cs.length cs

/-- `text.split()`: maximal runs of non-whitespace characters.
Fuel-structural for the same reason as `removeUrlsFuel`. -/
def splitWsFuel : Nat → List Char → List (List Char)
  | 0, _ => []
  | _ + 1, [] => []
  | fuel + 1, c :: rest =>
      if c.isWhitespace then
        splitWsFuel fuel rest
      else
        (c :: rest.takeWhile (fun d => !d.isWhitespace)) ::
          splitWsFuel fuel (rest.dropWhile (fun d => !d.isWhitespace))

/-- `text.split()` with enough fuel for the whole input. -/
def splitWs (cs : List Char) : List (List Char) :=
  splitWsFuel cs.length cs

/-- `' '.join(words)`. -/
def joinSpace : List (List Char) → List Char
  | [] => []
  | [w] => w
  | w :: ws => w ++ ' ' :: joinSpace ws

/-- `SentimentAnalyzer.clean_text`: strip URLs and mentions, drop `#`,
normalise whitespace.  (The trailing `.strip()` is a no-op after
`' '.join(text.split())`.) -/
def clean_text (text : String) : String :=
  let cs := removeUrls text.toList
  let cs := removeMentions cs
  let cs := cs.filter (fun c => c ≠ '#')
  String.mk (joinSpace (splitWs cs))

/-- `SentimentAnalyzer.analyze`, parametrised by the TextBlob and VADER
oracles.  Empty cleaned text short-circuits to the zero result; otherwise the
blend is `0.6 * vader.compound + 0.4 * textblob.polarity` and the confidence
is `1 - |vader.compound - textblob.polarity| / 2`.  No clamping is applied
anywhere. -/
def analyze (tb : String → TextBlobResult) (vd : String → VaderResult)
    (text : String) : SentimentResult :=
  let cleaned := clean_text text
  if cleaned = "" then
    ⟨0, 0, 0, 0, 0, none, none, none⟩
  else
    let t := tb cleaned
    let v := vd cleaned
    let vader_weight : ℚ := 6/10
    let textblob_weight : ℚ := 4/10
    let combined_score := v.compound * vader_weight + t.polarity * textblob_weight
    let agreement := 1 - |v.compound - t.polarity| / 2
    ⟨combined_score, t.polarity, v.compound, agreement, t.subjectivity,
      some v.positive, some v.negative, some v.neutral⟩

/-- `SentimentAnalyzer.classify_sentiment` (lines 247-256): the exact
if/elif chain of the source. -/
def classify_sentiment (score : ℚ) : String :=
  if score ≥ 5/10 then "Very Positive"
  else if score ≥ 5/100 then "Positive"
  else if score > -5/100 then "Neutral"
  else if score > -5/10 then "Negative"
  else "Very Negative"

/-- The classification table as the spec states it: five half-open
intervals, first match wins (`score ≥ 0.5 → Very Positive`;
`0.05 ≤ score < 0.5 → Positive`; `-0.05 < score < 0.05 → Neutral`;
`-0.5 < score ≤ -0.05 → Negative`; `score ≤ -0.5 → Very Negative`). -/
def classifySpecTable (score : ℚ) : String :=
  if score ≥ 5/10 then "Very Positive"
  else if 5/100 ≤ score ∧ score < 5/10 then "Positive"
  else if -5/100 < score ∧ score < 5/100 then "Neutral"
  else if -5/10 < score ∧ score ≤ -5/100 then "Negative"
  else "Very Negative"

/-- `SentimentAnalyzer.analyze_batch`. -/
def analyze_batch (tb : String → TextBlobResult) (vd : String → VaderResult)
    (texts : List String) : List SentimentResult :=
  texts.map (analyze tb vd)

/-- Return dict of `SentimentAnalyzer.get_overall_sentiment`.  The empty-input
branch returns a dict without the three `*_percentage` keys, so those are
collected in an `Option` triple (positive, negative, neutral percentages;
`none` = keys absent). -/
structure OverallSentiment where
  average_sentiment : ℚ
  positive_count : ℤ
  negative_count : ℤ
  neutral_count : ℤ
  total_count : ℤ
  percentages : Option (ℚ × ℚ × ℚ)
deriving Repr, DecidableEq

/-- `SentimentAnalyzer.get_overall_sentiment` (lines 188-235): empty input
returns the all-zero dict (with `average_sentiment = 0.0` and no percentage
keys); otherwise mean score plus counts at thresholds ±0.05 (strict). -/
def get_overall_sentiment (tb : String → TextBlobResult)
    (vd : String → VaderResult) (texts : List String) : OverallSentiment :=
  if texts = [] then
    ⟨0, 0, 0, 0, 0, none⟩
  else
    let results := analyze_batch tb vd texts
    let total : ℤ := results.length
    let average_sentiment := (results.map (·.sentiment_score)).sum / (total : ℚ)
    let positive_count : ℤ :=
      (results.filter (fun r => r.sentiment_score > 5/100)).length
    let negative_count : ℤ :=
      (results.filter (fun r => r.sentiment_score < -5/100)).length
    let neutral_count := total - positive_count - negative_count
    ⟨average_sentiment, positive_count, negative_count, neutral_count, total,
      some (((positive_count : ℚ) / (total : ℚ)) * 100,
            ((negative_count : ℚ) / (total : ℚ)) * 100,
            ((neutral_count : ℚ) / (total : ℚ)) * 100)⟩

/-- Return dict of `MarketIndicators.get_overall_market_sentiment`
(the composite fields; the echoed raw indicator dicts are not modelled). -/
structure MarketSentiment where
  composite_score : ℚ
  sentiment : String
deriving Repr, DecidableEq

/-- The `scores`/`weights` lists built by
`MarketIndicators.get_overall_market_sentiment` (lines 446-462), as a list of
(score, weight) pairs: VIX weight 0.3, advance/decline 0.3, put/call 0.2,
breadth 0.2; an absent (falsy) indicator contributes nothing. -/
def marketPairs (vix ad_line pc_ratio breadth : Option ℚ) : List (ℚ × ℚ) :=
  (match vix with | some s => [(s, 3/10)] | none => []) ++
  (match ad_line with | some s => [(s, 3/10)] | none => []) ++
  (match pc_ratio with | some s => [(s, 2/10)] | none => []) ++
  (match breadth with | some s => [(s, 2/10)] | none => [])

/-- `MarketIndicators.get_overall_market_sentiment` (lines 423-495): if no
indicator is available it returns `{}` (modelled as `none`); otherwise the
weighted average `sum(s*w)/sum(w)` over the available indicators, classified
at thresholds 0.4 / 0.1 / -0.1 / -0.4. -/
def get_overall_market_sentiment (vix ad_line pc_ratio breadth : Option ℚ) :
    Option MarketSentiment :=
  let pairs := marketPairs vix ad_line pc_ratio breadth
  if pairs = [] then
    none
  else
    let composite_score :=
      (pairs.map (fun p => p.1 * p.2)).sum / (pairs.map (fun p => p.2)).sum
    let sentiment :=
      if composite_score > 4/10 then "bullish"
      else if composite_score > 1/10 then "slightly_bullish"
      else if composite_score > -1/10 then "neutral"
      else if composite_score > -4/10 then "slightly_bearish"
      else "bearish"
    some ⟨composite_score, sentiment⟩

/-- An institutional holder record; only the `change` field matters to
`analyze_institutional_sentiment` (`h.get('change', 0)`). -/
structure Holder where
  change : ℚ
deriving Repr, DecidableEq

/-- Return dict of `FMPCollector.analyze_institutional_sentiment`.  The
no-data branch has no `increasing_positions`/`decreasing_positions` keys. -/
structure InstitutionalSentiment where
  sentiment : String
  score : ℚ
  holder_count : ℤ
  increasing_positions : Option ℤ
  decreasing_positions : Option ℤ
deriving Repr, DecidableEq

/-- `FMPCollector.analyze_institutional_sentiment` (lines 246-296), applied to
the fetched holder list: score `(increasing - decreasing) / total` (division
guarded by `total > 0`), label at thresholds ±0.3. -/
def analyze_institutional_sentiment (holders : List Holder) :
    InstitutionalSentiment :=
  if holders = [] then
    ⟨"unknown", 0, 0, none, none⟩
  else
    let increasing : ℤ := (holders.filter (fun h => h.change > 0)).length
    let decreasing : ℤ := (holders.filter (fun h => h.change < 0)).length
    let total : ℤ := holders.length
    let score : ℚ :=
      if total > 0 then ((increasing : ℚ) - (decreasing : ℚ)) / (total : ℚ)
      else 0
    let sentiment :=
      if score > 3/10 then "bullish"
      else if score < -(3/10) then "bearish"
      else "neutral"
    ⟨sentiment, score, total, some increasing, some decreasing⟩

/-- Python's `c in s` for a single-character `c`: character membership. -/
def strContains (s : String) (c : Char) : Bool :=
  s.toList.contains c

/-- An insider trade record; only `transactionType` matters to the buy/sell
counting (`'P' in t.get('transactionType', '')` is a substring test, i.e.
character membership). -/
structure Trade where
  transactionType : String
deriving Repr, DecidableEq

/-- Return dict of `FMPCollector.analyze_insider_sentiment`.  The
no-recent-trades branch has no `buys`/`sells` keys. -/
structure InsiderSentiment where
  sentiment : String
  score : ℚ
  trade_count : ℤ
  buys : Option ℤ
  sells : Option ℤ
deriving Repr, DecidableEq

/-- The core of `FMPCollector.analyze_insider_sentiment` (lines 342-358),
applied to the already-date-filtered `recent_trades` list: count buys
(`'P' in transactionType`) and sells (`'S' in transactionType`); the division
`(buys - sells) / total` is evaluated only when `total = buys + sells > 0`,
otherwise the score is 0.0; label at thresholds ±0.2.  Note `trade_count` in
the populated branch is `buys + sells`, not `len(recent_trades)`. -/
def analyze_insider_sentiment_recent (recent_trades : List Trade) :
    InsiderSentiment :=
  if recent_trades = [] then
    ⟨"neutral", 0, 0, none, none⟩
  else
    let buys : ℤ :=
      (recent_trades.filter (fun t => strContains t.transactionType 'P')).length
    let sells : ℤ :=
      (recent_trades.filter (fun t => strContains t.transactionType 'S')).length
    let total := buys + sells
    let score : ℚ :=
      if total > 0 then ((buys : ℚ) - (sells : ℚ)) / (total : ℚ)
      else 0
    let sentiment :=
      if score > 2/10 then "bullish"
      else if score < -(2/10) then "bearish"
      else "neutral"
    ⟨sentiment, score, total, some buys, some sells⟩

/-! ### Theorems -/

/-- C4: every real score is mapped to exactly one of the five labels, and the
if/elif chain of `classify_sentiment` realises exactly the spec's
first-match-wins threshold table (`≥ 0.5` Very Positive; `[0.05, 0.5)`
Positive; `(-0.05, 0.05)` Neutral; `(-0.5, -0.05]` Negative; `≤ -0.5` Very
Negative). -/
theorem classify_sentiment_matches_table (score : ℚ) :
    classify_sentiment score = classifySpecTable score := by
  unfold classify_sentiment classifySpecTable
  by_cases hA : score ≥ 5/10
  · rw [if_pos hA, if_pos hA]
  · rw [if_neg hA, if_neg hA]
    have hA' : score < 5/10 := not_le.mp hA
    by_cases hB : score ≥ 5/100
    · rw [if_pos hB, if_pos ⟨hB, hA'⟩]
    · have hnP : ¬ (5/100 ≤ score ∧ score < 5/10) := by
        rintro ⟨c1, _⟩; exact hB c1
      rw [if_neg hB, if_neg hnP]
      have hB' : score < 5/100 := not_le.mp hB
      by_cases hC : score > -5/100
      · rw [if_pos hC, if_pos ⟨hC, hB'⟩]
      · have hnN : ¬ (-5/100 < score ∧ score < 5/100) := by
          rintro ⟨c1, _⟩; exact hC c1
        rw [if_neg hC, if_neg hnN]
        have hC' : score ≤ -5/100 := not_lt.mp hC
        by_cases hD : score > -5/10
        · rw [if_pos hD, if_pos ⟨hD, hC'⟩]
        · have hnD : ¬ (-5/10 < score ∧ score ≤ -5/100) := by
            rintro ⟨d1, _⟩; exact hD d1
          rw [if_neg hD, if_neg hnD]

/-- C5 counterexample: the claim `classify(-0.05) = "Neutral" and
classify(-0.050001) = "Negative"` is false, because the code's third guard is
the strict `score > -0.05`, so the boundary score -0.05 falls through to the
`"Negative"` branch. -/
theorem classify_boundary_claim_false :
    ¬ (classify_sentiment (-5/100) = "Neutral" ∧
       classify_sentiment (-50001/1000000) = "Negative") := by
  intro h
  have h1 := h.1
  norm_num [classify_sentiment] at h1
  exact absurd h1 (by decide)

/-- C5 amended: at the exact boundary score -0.05 the classifier returns
"Negative" (not "Neutral"), and at -0.050001 it also returns "Negative". -/
theorem classify_boundary_amended :
    classify_sentiment (-5/100) = "Negative" ∧
    classify_sentiment (-50001/1000000) = "Negative" := by
  constructor <;> norm_num [classify_sentiment]

/-- Helper: `analyze` on text that cleans to empty is the zero result,
whatever the lexical oracles return. -/
theorem analyze_eq_of_empty (tb : String → TextBlobResult)
    (vd : String → VaderResult) (text : String) (h : clean_text text = "") :
    analyze tb vd text = ⟨0, 0, 0, 0, 0, none, none, none⟩ := by
  simp [analyze, h]

/-- Helper: `analyze` on text that cleans to non-empty, written out. -/
theorem analyze_eq_of_ne (tb : String → TextBlobResult)
    (vd : String → VaderResult) (text : String) (h : clean_text text ≠ "") :
    analyze tb vd text =
      ⟨(vd (clean_text text)).compound * (6/10)
          + (tb (clean_text text)).polarity * (4/10),
       (tb (clean_text text)).polarity,
       (vd (clean_text text)).compound,
       1 - |(vd (clean_text text)).compound - (tb (clean_text text)).polarity| / 2,
       (tb (clean_text text)).subjectivity,
       some (vd (clean_text text)).positive,
       some (vd (clean_text text)).negative,
       some (vd (clean_text text)).neutral⟩ := by
  simp [analyze, h]

/-- C8: any text whose cleaned form is empty gets the zero/neutral result,
independently of (hence without consulting) the two lexical model oracles. -/
theorem analyze_empty_text_zero_result (tb : String → TextBlobResult)
    (vd : String → VaderResult) (text : String) (h : clean_text text = "") :
    analyze tb vd text = ⟨0, 0, 0, 0, 0, none, none, none⟩ :=
  analyze_eq_of_empty tb vd text h

/-- C8 witness: whitespace-only input cleans to empty and yields the zero
result even under adversarial oracles. -/
theorem analyze_empty_text_zero_result_witness :
    clean_text "   " = "" ∧
    analyze (fun _ => ⟨9, 9⟩) (fun _ => ⟨9, 9, 9, 9⟩) "   " =
      ⟨0, 0, 0, 0, 0, none, none, none⟩ :=
  ⟨by decide, analyze_empty_text_zero_result _ _ _ (by decide)⟩

/-- C6: on text with non-empty cleaned form, the blended score is
`0.6 * vader.compound + 0.4 * textblob.polarity` and the confidence is
`1 - |vader.compound - textblob.polarity| / 2`; identical model outputs give
confidence 1, and outputs +1 / -1 give confidence 0. -/
theorem analyze_blend_formula (tb : String → TextBlobResult)
    (vd : String → VaderResult) (text : String) (h : clean_text text ≠ "") :
    (analyze tb vd text).sentiment_score =
        6/10 * (vd (clean_text text)).compound
          + 4/10 * (tb (clean_text text)).polarity ∧
    (analyze tb vd text).confidence =
        1 - |(vd (clean_text text)).compound - (tb (clean_text text)).polarity| / 2 ∧
    ((vd (clean_text text)).compound = (tb (clean_text text)).polarity →
        (analyze tb vd text).confidence = 1) ∧
    ((vd (clean_text text)).compound = 1 ∧ (tb (clean_text text)).polarity = -1 →
        (analyze tb vd text).confidence = 0) := by
  rw [analyze_eq_of_ne tb vd text h]
  refine ⟨by ring, rfl, ?_, ?_⟩
  · intro he
    simp [he]
  · rintro ⟨h1, h2⟩
    rw [h1, h2]
    norm_num

/-- C6 witness: concrete oracles with non-empty cleaned text. -/
theorem analyze_blend_formula_witness :
    (analyze (fun _ => ⟨1/2, 0⟩) (fun _ => ⟨1/2, 0, 0, 0⟩) "hello").sentiment_score =
        6/10 * ((fun (_ : String) => (⟨1/2, 0, 0, 0⟩ : VaderResult)) (clean_text "hello")).compound
          + 4/10 * ((fun (_ : String) => (⟨1/2, 0⟩ : TextBlobResult)) (clean_text "hello")).polarity ∧
    (analyze (fun _ => ⟨1/2, 0⟩) (fun _ => ⟨1/2, 0, 0, 0⟩) "hello").confidence =
        1 - |((fun (_ : String) => (⟨1/2, 0, 0, 0⟩ : VaderResult)) (clean_text "hello")).compound
              - ((fun (_ : String) => (⟨1/2, 0⟩ : TextBlobResult)) (clean_text "hello")).polarity| / 2 ∧
    (((fun (_ : String) => (⟨1/2, 0, 0, 0⟩ : VaderResult)) (clean_text "hello")).compound =
        ((fun (_ : String) => (⟨1/2, 0⟩ : TextBlobResult)) (clean_text "hello")).polarity →
      (analyze (fun _ => ⟨1/2, 0⟩) (fun _ => ⟨1/2, 0, 0, 0⟩) "hello").confidence = 1) ∧
    (((fun (_ : String) => (⟨1/2, 0, 0, 0⟩ : VaderResult)) (clean_text "hello")).compound = 1 ∧
        ((fun (_ : String) => (⟨1/2, 0⟩ : TextBlobResult)) (clean_text "hello")).polarity = -1 →
      (analyze (fun _ => ⟨1/2, 0⟩) (fun _ => ⟨1/2, 0, 0, 0⟩) "hello").confidence = 0) :=
  analyze_blend_formula (fun _ => ⟨1/2, 0⟩) (fun _ => ⟨1/2, 0, 0, 0⟩) "hello" (by decide)

/-- C1 counterexample: nothing is clamped — with adversarial lexical outputs
(compound = polarity = 2, outside their documented ranges) the returned score
is 2, outside [-1, 1]. -/
theorem analyze_clamp_claim_false :
    ¬ (-1 ≤ (analyze (fun _ => ⟨2, 2⟩) (fun _ => ⟨2, 0, 0, 0⟩) "boom").sentiment_score ∧
       (analyze (fun _ => ⟨2, 2⟩) (fun _ => ⟨2, 0, 0, 0⟩) "boom").sentiment_score ≤ 1) := by
  rw [analyze_eq_of_ne _ _ _ (by decide)]
  norm_num

/-- C1 amended: there is no defensive clamping, but whenever the lexical
model outputs are within their documented ranges (|polarity| ≤ 1,
|compound| ≤ 1, subjectivity ∈ [0, 1]) the returned score lies in [-1, 1],
the confidence in [0, 1] and the subjectivity in [0, 1]. -/
theorem analyze_result_in_documented_ranges (tb : String → TextBlobResult)
    (vd : String → VaderResult)
    (htb_pol : ∀ s, |(tb s).polarity| ≤ 1)
    (htb_subj : ∀ s, 0 ≤ (tb s).subjectivity ∧ (tb s).subjectivity ≤ 1)
    (hvd : ∀ s, |(vd s).compound| ≤ 1) (text : String) :
    (-1 ≤ (analyze tb vd text).sentiment_score ∧
      (analyze tb vd text).sentiment_score ≤ 1) ∧
    (0 ≤ (analyze tb vd text).confidence ∧
      (analyze tb vd text).confidence ≤ 1) ∧
    (0 ≤ (analyze tb vd text).subjectivity ∧
      (analyze tb vd text).subjectivity ≤ 1) := by
  by_cases h : clean_text text = ""
  · rw [analyze_eq_of_empty tb vd text h]
    norm_num
  · rw [analyze_eq_of_ne tb vd text h]
    obtain ⟨ht1, ht2⟩ := abs_le.mp (htb_pol (clean_text text))
    obtain ⟨hv1, hv2⟩ := abs_le.mp (hvd (clean_text text))
    obtain ⟨hs1, hs2⟩ := htb_subj (clean_text text)
    have habs : |(vd (clean_text text)).compound - (tb (clean_text text)).polarity| ≤ 2 := by
      rw [abs_le]
      constructor <;> linarith
    have habs0 : 0 ≤ |(vd (clean_text text)).compound - (tb (clean_text text)).polarity| :=
      abs_nonneg _
    dsimp only
    refine ⟨⟨by linarith, by linarith⟩, ⟨by linarith, by linarith⟩, hs1, hs2⟩

/-- C1 amended witness: in-range oracles at a concrete input. -/
theorem analyze_result_in_documented_ranges_witness :
    (-1 ≤ (analyze (fun _ => ⟨1, 1⟩) (fun _ => ⟨1, 0, 0, 0⟩) "good").sentiment_score ∧
      (analyze (fun _ => ⟨1, 1⟩) (fun _ => ⟨1, 0, 0, 0⟩) "good").sentiment_score ≤ 1) ∧
    (0 ≤ (analyze (fun _ => ⟨1, 1⟩) (fun _ => ⟨1, 0, 0, 0⟩) "good").confidence ∧
      (analyze (fun _ => ⟨1, 1⟩) (fun _ => ⟨1, 0, 0, 0⟩) "good").confidence ≤ 1) ∧
    (0 ≤ (analyze (fun _ => ⟨1, 1⟩) (fun _ => ⟨1, 0, 0, 0⟩) "good").subjectivity ∧
      (analyze (fun _ => ⟨1, 1⟩) (fun _ => ⟨1, 0, 0, 0⟩) "good").subjectivity ≤ 1) :=
  analyze_result_in_documented_ranges (fun _ => ⟨1, 1⟩) (fun _ => ⟨1, 0, 0, 0⟩)
    (fun _ => by norm_num) (fun _ => by norm_num) (fun _ => by norm_num) "good"

/-- C3 counterexample: on the empty batch the mean is reported as the number
0.0 (not a NaN sentinel) and the percentage keys are absent from the result,
not present with value 0. -/
theorem batch_empty_mean_is_zero :
    (get_overall_sentiment (fun _ => ⟨0, 0⟩) (fun _ => ⟨0, 0, 0, 0⟩) []).average_sentiment
        = 0 ∧
    (get_overall_sentiment (fun _ => ⟨0, 0⟩) (fun _ => ⟨0, 0, 0, 0⟩) []).percentages
        = none := by
  constructor <;> rfl

/-- C3 amended: the empty batch yields `total_count = 0`, all count fields 0,
`average_sentiment = 0.0` (a plain zero, not a NaN sentinel), and no
percentage fields at all. -/
theorem batch_empty_all_zero (tb : String → TextBlobResult)
    (vd : String → VaderResult) :
    get_overall_sentiment tb vd [] = ⟨0, 0, 0, 0, 0, none⟩ := by
  rfl

/-- Helper: dividing every entry of a list by a constant divides the sum. -/
theorem sum_map_div_snd (l : List (ℚ × ℚ)) (c : ℚ) :
    (l.map (fun p => p.2 / c)).sum = (l.map (fun p => p.2)).sum / c := by
  induction l with
  | nil => simp
  | cons x xs ih => simp [ih, add_div]

/-- Helper: every weight occurring in `marketPairs` is positive (it is 0.3 or
0.2). -/
theorem marketPairs_weight_pos (vix ad_line pc_ratio breadth : Option ℚ) :
    ∀ p ∈ marketPairs vix ad_line pc_ratio breadth, 0 < p.2 := by
  intro p hp
  unfold marketPairs at hp
  rw [List.mem_append, List.mem_append, List.mem_append] at hp
  have key : ∀ (o : Option ℚ) (w : ℚ), 0 < w →
      p ∈ (match o with | some s => [(s, w)] | none => []) → 0 < p.2 := by
    intro o w hw hmem
    cases o with
    | none => simp at hmem
    | some s =>
        simp at hmem
        rw [hmem]
        exact hw
  rcases hp with ((h1 | h2) | h3) | h4
  · exact key _ _ (by norm_num) h1
  · exact key _ _ (by norm_num) h2
  · exact key _ _ (by norm_num) h3
  · exact key _ _ (by norm_num) h4

/-- C2 counterexample: with every indicator absent the aggregator returns the
empty dict (`none`), not a defined `score = 0 / "Neutral"` record. -/
theorem aggregate_empty_claim_false :
    get_overall_market_sentiment none none none none ≠ some ⟨0, "Neutral"⟩ ∧
    get_overall_market_sentiment none none none none = none := by
  constructor
  · intro h
    exact absurd h (by decide)
  · rfl

/-- C2 amended: whenever no sub-score is present the aggregator returns the
empty result (`{}` / `none`); it never divides by zero, but it does not
return a `score = 0, label = Neutral` record either. -/
theorem aggregate_no_present_returns_empty
    (vix ad_line pc_ratio breadth : Option ℚ)
    (h : marketPairs vix ad_line pc_ratio breadth = []) :
    get_overall_market_sentiment vix ad_line pc_ratio breadth = none := by
  simp [get_overall_market_sentiment, h]

/-- C2 amended witness: all four indicators absent. -/
theorem aggregate_no_present_returns_empty_witness :
    get_overall_market_sentiment none none none none = none :=
  aggregate_no_present_returns_empty none none none none (by rfl)

/-- C7: with at least one indicator present, the composite score is the
weight-normalised average `Σ(s·w)/Σ(w)` over the present indicators, and the
renormalised weights of the present indicators sum to 1. -/
theorem aggregate_weighted_renormalized
    (vix ad_line pc_ratio breadth : Option ℚ)
    (h : marketPairs vix ad_line pc_ratio breadth ≠ []) :
    ∃ r : MarketSentiment,
      get_overall_market_sentiment vix ad_line pc_ratio breadth = some r ∧
      r.composite_score =
        ((marketPairs vix ad_line pc_ratio breadth).map (fun p => p.1 * p.2)).sum /
          ((marketPairs vix ad_line pc_ratio breadth).map (fun p => p.2)).sum ∧
      ((marketPairs vix ad_line pc_ratio breadth).map
          (fun p => p.2 /
            ((marketPairs vix ad_line pc_ratio breadth).map (fun p => p.2)).sum)).sum
        = 1 := by
  have hpos : 0 < ((marketPairs vix ad_line pc_ratio breadth).map (fun p => p.2)).sum := by
    apply List.sum_pos
    · intro x hx
      obtain ⟨p, hp, rfl⟩ := List.mem_map.mp hx
      exact marketPairs_weight_pos vix ad_line pc_ratio breadth p hp
    · simpa using h
  simp only [get_overall_market_sentiment]
  rw [if_neg h]
  exact ⟨_, rfl, rfl, by rw [sum_map_div_snd]; exact div_self (ne_of_gt hpos)⟩

/-- C7 witness: only the VIX indicator present. -/
theorem aggregate_weighted_renormalized_witness :
    ∃ r : MarketSentiment,
      get_overall_market_sentiment (some 1) none none none = some r ∧
      r.composite_score =
        ((marketPairs (some 1) none none none).map (fun p => p.1 * p.2)).sum /
          ((marketPairs (some 1) none none none).map (fun p => p.2)).sum ∧
      ((marketPairs (some 1) none none none).map
          (fun p => p.2 /
            ((marketPairs (some 1) none none none).map (fun p => p.2)).sum)).sum
        = 1 :=
  aggregate_weighted_renormalized (some 1) none none none (by decide)

/-- Helper: the coarse bullish/bearish/neutral labelling at threshold `a > 0`
holds exactly on the three expected score regions. -/
theorem threshold_label_spec (s a : ℚ) (h0 : 0 ≤ a) :
    ((if s > a then "bullish" else if s < -a then "bearish" else "neutral")
        = "bullish" ↔ s > a) ∧
    ((if s > a then "bullish" else if s < -a then "bearish" else "neutral")
        = "bearish" ↔ s < -a) ∧
    ((if s > a then "bullish" else if s < -a then "bearish" else "neutral")
        = "neutral" ↔ -a ≤ s ∧ s ≤ a) := by
  by_cases h1 : s > a
  · rw [if_pos h1]
    have hnb : ¬ s < -a := by linarith
    exact ⟨⟨fun _ => h1, fun _ => rfl⟩,
           ⟨fun hx => absurd hx (by decide), fun hx => absurd hx hnb⟩,
           ⟨fun hx => absurd hx (by decide), fun hx => absurd h1 (not_lt.mpr hx.2)⟩⟩
  · rw [if_neg h1]
    by_cases h2 : s < -a
    · rw [if_pos h2]
      exact ⟨⟨fun hx => absurd hx (by decide), fun hx => absurd hx h1⟩,
             ⟨fun _ => h2, fun _ => rfl⟩,
             ⟨fun hx => absurd hx (by decide), fun hx => absurd h2 (not_lt.mpr hx.1)⟩⟩
    · rw [if_neg h2]
      exact ⟨⟨fun hx => absurd hx (by decide), fun hx => absurd hx h1⟩,
             ⟨fun hx => absurd hx (by decide), fun hx => absurd hx h2⟩,
             ⟨fun _ => ⟨not_lt.mp h2, not_lt.mp h1⟩, fun _ => rfl⟩⟩

/-- C9: on a non-empty holder list the institutional score is
`(increasing - decreasing) / total`, and the label is "bullish" exactly when
the score exceeds 0.3, "bearish" exactly when it is below -0.3, and
"neutral" otherwise. -/
theorem institutional_fraction_and_labels (holders : List Holder)
    (h : holders ≠ []) :
    (analyze_institutional_sentiment holders).score =
      (((holders.filter (fun x => x.change > 0)).length : ℚ) -
        ((holders.filter (fun x => x.change < 0)).length : ℚ)) /
        (holders.length : ℚ) ∧
    ((analyze_institutional_sentiment holders).sentiment = "bullish" ↔
      (analyze_institutional_sentiment holders).score > 3/10) ∧
    ((analyze_institutional_sentiment holders).sentiment = "bearish" ↔
      (analyze_institutional_sentiment holders).score < -(3/10)) ∧
    ((analyze_institutional_sentiment holders).sentiment = "neutral" ↔
      (-(3/10) ≤ (analyze_institutional_sentiment holders).score ∧
        (analyze_institutional_sentiment holders).score ≤ 3/10)) := by
  have hlen : ((holders.length : ℤ)) > 0 := by
    exact_mod_cast List.length_pos.mpr h
  unfold analyze_institutional_sentiment
  rw [if_neg h]
  dsimp only
  rw [if_pos hlen]
  refine ⟨by push_cast; ring, ?_⟩
  exact threshold_label_spec _ _ (by norm_num)

/-- C9 witness: a single holder with increasing position gives score 1 and a
"bullish" label. -/
theorem institutional_fraction_and_labels_witness :
    (analyze_institutional_sentiment [⟨1⟩]).score =
      (((([⟨1⟩] : List Holder).filter (fun x => x.change > 0)).length : ℚ) -
        ((([⟨1⟩] : List Holder).filter (fun x => x.change < 0)).length : ℚ)) /
        (([⟨1⟩] : List Holder).length : ℚ) ∧
    ((analyze_institutional_sentiment [⟨1⟩]).sentiment = "bullish" ↔
      (analyze_institutional_sentiment [⟨1⟩]).score > 3/10) ∧
    ((analyze_institutional_sentiment [⟨1⟩]).sentiment = "bearish" ↔
      (analyze_institutional_sentiment [⟨1⟩]).score < -(3/10)) ∧
    ((analyze_institutional_sentiment [⟨1⟩]).sentiment = "neutral" ↔
      (-(3/10) ≤ (analyze_institutional_sentiment [⟨1⟩]).score ∧
        (analyze_institutional_sentiment [⟨1⟩]).score ≤ 3/10)) :=
  institutional_fraction_and_labels [⟨1⟩] (by decide)

/-- C10: on a non-empty recent-trade list containing no purchase and no sale
transactions, buys + sells is 0, the guarded division is skipped, and the
result is score 0.0 with label "neutral" (and zero counted trades). -/
theorem insider_no_trades_no_division (recent_trades : List Trade)
    (h : recent_trades ≠ [])
    (hP : ∀ t ∈ recent_trades, strContains t.transactionType 'P' = false)
    (hS : ∀ t ∈ recent_trades, strContains t.transactionType 'S' = false) :
    analyze_insider_sentiment_recent recent_trades =
      ⟨"neutral", 0, 0, some 0, some 0⟩ := by
  have hPf : recent_trades.filter (fun t => strContains t.transactionType 'P') = [] := by
    rw [List.filter_eq_nil_iff]
    intro t ht
    simp [hP t ht]
  have hSf : recent_trades.filter (fun t => strContains t.transactionType 'S') = [] := by
    rw [List.filter_eq_nil_iff]
    intro t ht
    simp [hS t ht]
  unfold analyze_insider_sentiment_recent
  rw [if_neg h, hPf, hSf]
  norm_num

/-- C10 witness: one recent trade whose type contains neither P nor S. -/
theorem insider_no_trades_no_division_witness :
    analyze_insider_sentiment_recent [⟨"G"⟩] =
      ⟨"neutral", 0, 0, some 0, some 0⟩ :=
  insider_no_trades_no_division [⟨"G"⟩] (by decide) (by decide) (by decide)

end Sentiment
